import Mathlib

attribute [local semireducible] Rat.mul Rat.add Rat.sub Rat.inv Rat.ofScientific

deriving instance DecidableEq for Except

/-
Verification of the intent-planning and tool-dispatch pipeline of the
query-dispatcher repository (src/agent/...).

Shallow embedding conventions:
  * Python strings are modelled as `String` / `List Char`; the repository's
    queries and tables are ASCII, so `Char.toLower`, `Char.toUpper`,
    `Char.isAlpha`, `Char.isDigit` model `str.lower`, `str.title`, the
    regex classes `[a-zA-Z]`, `\d`, and `\w` faithfully on the inputs the
    program works with.
  * Python numbers are modelled by `PyNum`: an exact rational value
    together with the int/float distinction (`operator.truediv` always
    yields a float, int arithmetic stays int, a literal with a dot is a
    float).  IEEE-754 rounding is not modelled; every computation examined
    by the claims is exact in binary floating point as well (sums,
    differences and products of small decimal values).
  * Exceptions are modelled by `Except String`: `raise` is `.error`,
    a `try/except` is a `match`.
  * Each Python regex is implemented as a dedicated matcher whose
    backtracking order mirrors `re.search` (leftmost start, greedy `+`,
    lazy `+?`/`*?`); the original pattern is quoted in the doc comment.
-/

/-! ## Character classes and basic string helpers (agent/utils.py helpers) -/

/-- Python regex class \s and str.strip default charset over ASCII. -/
def isPySpace (c : Char) : Bool :=
  c == ' ' || c == '\t' || c == '\n' || c.toNat == 13 || c.toNat == 11 || c.toNat == 12

/-- Python regex class \w (ASCII fragment): letters, digits, underscore. -/
def isWordChar (c : Char) : Bool :=
  c.isAlpha || c.isDigit || c == '_'

/-- A quote character, the regex class containing the two ASCII quotes. -/
def isQuoteChar (c : Char) : Bool :=
  c.toNat == 34 || c.toNat == 39

/-- Python str.strip: drop leading and trailing whitespace. -/
def pyStrip (l : List Char) : List Char :=
  ((l.dropWhile isPySpace).reverse.dropWhile isPySpace).reverse

/-- Lowercase a character list (Python str.lower on ASCII text). -/
def toLowerL (l : List Char) : List Char :=
  l.map Char.toLower

/-- normalize_text from agent/utils.py: text.strip().lower(), as a char list. -/
def normalize_text (s : String) : List Char :=
  toLowerL (pyStrip s.data)

/-- Whether pat occurs as a contiguous substring (Python `pat in s`). -/
def containsSub (pat : List Char) : List Char → Bool
  | [] => pat.isEmpty
  | c :: rest => pat.isPrefixOf (c :: rest) || containsSub pat rest

/-- re.search driver: try the position matcher at each start, leftmost wins. -/
def searchOpt {α : Type} (m : List Char → Option α) : List Char → Option α
  | [] => m []
  | c :: rest =>
    match m (c :: rest) with
    | some r => some r
    | none => searchOpt m rest

/-- re.search driver for boolean matchers. -/
def searchB (p : List Char → Bool) : List Char → Bool
  | [] => p []
  | c :: rest => p (c :: rest) || searchB p rest

/-- Match a literal word at the current position; return the rest. -/
def lit (w : List Char) (s : List Char) : Option (List Char) :=
  if w.isPrefixOf s then some (s.drop w.length) else none

/-- Case-insensitive literal match (for a pattern compiled with IGNORECASE). -/
def litCI : List Char → List Char → Option (List Char)
  | [], s => some s
  | _ :: _, [] => none
  | w :: ws, c :: cs => if w.toLower == c.toLower then litCI ws cs else none

/-- Regex `\s+` (greedy; nothing that follows it in the source patterns can
start with whitespace, so no backtracking is needed). -/
def dropWs1 (s : List Char) : Option (List Char) :=
  match s with
  | c :: rest => if isPySpace c then some (rest.dropWhile isPySpace) else none
  | [] => none

/-- Regex `\d+(?:\.\d+)?` (greedy): the matched literal and the rest. -/
def spanNumber (s : List Char) : Option (List Char × List Char) :=
  let ds := s.takeWhile Char.isDigit
  let r1 := s.dropWhile Char.isDigit
  if ds.isEmpty then none
  else
    match r1 with
    | '.' :: r2 =>
      let ds2 := r2.takeWhile Char.isDigit
      if ds2.isEmpty then some (ds, r1)
      else some (ds ++ '.' :: ds2, r2.dropWhile Char.isDigit)
    | _ => some (ds, r1)

/-- Regex `(\w+)` (greedy): the matched word (possibly empty) and the rest. -/
def spanWord (s : List Char) : List Char × List Char :=
  (s.takeWhile isWordChar, s.dropWhile isWordChar)

/-- Value of a digit string. -/
def digitsVal (ds : List Char) : Nat :=
  ds.foldl (fun a c => a * 10 + (c.toNat - 48)) 0

/-- Python float() of a literal matched by `\d+(?:\.\d+)?`. -/
def pyFloatOfLit (l : List Char) : ℚ :=
  let ip := l.takeWhile Char.isDigit
  let rest := l.dropWhile Char.isDigit
  match rest with
  | '.' :: fr => (digitsVal ip : ℚ) + (digitsVal (fr.takeWhile Char.isDigit) : ℚ) / ((10 : ℚ) ^ (fr.takeWhile Char.isDigit).length)
  | _ => (digitsVal ip : ℚ)

/-- Fractional decimal digits of a rational in [0, 1), most significant first
(fuel-bounded; every float printed by the program has a short exact decimal
expansion, so the fuel of 17 is never exhausted on a reachable value). -/
def fracDigits : Nat → ℚ → List Nat
  | 0, _ => []
  | fuel + 1, q =>
    if q = 0 then []
    else
      let d := ⌊q * 10⌋
      d.toNat :: fracDigits fuel (q * 10 - d)

/-- Python str() of a nonnegative float value. -/
def pyFloatStrNonneg (q : ℚ) : String :=
  let ds := fracDigits 17 (q - ⌊q⌋)
  Nat.repr (⌊q⌋).toNat ++ "." ++ (if ds.isEmpty then "0" else String.join (ds.map Nat.repr))

/-- Python str() of a float value: integral floats print a trailing .0. -/
def pyFloatStr (q : ℚ) : String :=
  if q < 0 then "-" ++ pyFloatStrNonneg (-q) else pyFloatStrNonneg q

/-- Python str.title(): uppercase a letter after a non-letter, lowercase the rest. -/
def titleAux : Bool → List Char → List Char
  | _, [] => []
  | prevAlpha, c :: rest =>
    if c.isAlpha then
      (if prevAlpha then c.toLower else c.toUpper) :: titleAux true rest
    else c :: titleAux false rest

/-- Python str.title() on a char list. -/
def titleList (l : List Char) : List Char :=
  titleAux false l

/-! ## Safe expression evaluator (agent/utils.py: ALLOWED_OPS, safe_eval, _eval_node) -/

/-- A Python number: exact value plus the int/float tag (floats are modelled
exactly; see the header note). -/
structure PyNum where
  isFloat : Bool
  val : ℚ
deriving DecidableEq

/-- Binary operator node kinds of the Python ast (the ones relevant here). -/
inductive BinK where
  | add | sub | mult | div | pow | mod
  | floorDiv | bitOr | bitXor | bitAnd | lshift | rshift
deriving DecidableEq

/-- Unary operator node kinds of the Python ast. -/
inductive UnK where
  | usub | uadd | invert
deriving DecidableEq

/-- Expression syntax trees as produced by ast.parse(mode="eval"): numeric
constants, binary and unary operators, and the node kinds _eval_node rejects
without examining their payload (Name, Call, Attribute, Compare); the payloads
of the rejected nodes are reduced to what the claims quantify over. -/
inductive PyExpr where
  | num (v : PyNum)
  | bin (op : BinK) (l r : PyExpr)
  | un (op : UnK) (e : PyExpr)
  | name (id : String)
  | call (f : PyExpr)
  | attr (e : PyExpr) (fld : String)
  | cmp (l r : PyExpr)
deriving DecidableEq

/-- operator.truediv: always a float; ZeroDivisionError on a zero divisor. -/
def py_truediv (a b : PyNum) : Except String PyNum :=
  if b.val = 0 then .error "division by zero"
  else .ok ⟨true, a.val / b.val⟩

/-- operator.mod: floored modulo a - b*floor(a/b); ZeroDivisionError on zero. -/
def py_mod (a b : PyNum) : Except String PyNum :=
  if b.val = 0 then .error "modulo by zero"
  else .ok ⟨a.isFloat || b.isFloat, a.val - b.val * (⌊a.val / b.val⌋ : ℚ)⟩

/-- operator.pow on exact rationals: defined for integer exponents (a
non-integer exponent yields an irrational float in Python and is outside the
exact model); 0 to a negative power raises, int to a negative power is a float. -/
def py_pow (a b : PyNum) : Except String PyNum :=
  if b.val.den = 1 then
    if a.val = 0 ∧ b.val.num < 0 then .error "zero to a negative power"
    else .ok ⟨a.isFloat || b.isFloat || decide (b.val.num < 0), a.val ^ b.val.num⟩
  else .error "non-integer exponent outside the exact model"

/-- operator.add, wrapped like the other table entries. -/
def py_add (a b : PyNum) : Except String PyNum :=
  .ok ⟨a.isFloat || b.isFloat, a.val + b.val⟩

/-- operator.sub. -/
def py_sub (a b : PyNum) : Except String PyNum :=
  .ok ⟨a.isFloat || b.isFloat, a.val - b.val⟩

/-- operator.mul. -/
def py_mul (a b : PyNum) : Except String PyNum :=
  .ok ⟨a.isFloat || b.isFloat, a.val * b.val⟩

/-- operator.neg. -/
def py_neg (a : PyNum) : Except String PyNum :=
  .ok ⟨a.isFloat, -a.val⟩

/-- ALLOWED_OPS of agent/utils.py, binary part: ast.Add, ast.Sub, ast.Mult,
ast.Div (truediv), ast.Pow, ast.Mod map to their operator functions; every
other binary operator kind is absent from the table. -/
def ALLOWED_OPS_bin : BinK → Option (PyNum → PyNum → Except String PyNum)
  | .add => some py_add
  | .sub => some py_sub
  | .mult => some py_mul
  | .div => some py_truediv
  | .pow => some py_pow
  | .mod => some py_mod
  | _ => none

/-- ALLOWED_OPS of agent/utils.py, unary part: only ast.USub (operator.neg). -/
def ALLOWED_OPS_un : UnK → Option (PyNum → Except String PyNum)
  | .usub => some py_neg
  | _ => none

/-- _eval_node of agent/utils.py: constants return their value; a BinOp
evaluates left then right then looks its operator up in ALLOWED_OPS, a missing
entry is an error; a UnaryOp likewise; every other node kind is rejected. -/
def eval_node : PyExpr → Except String PyNum
  | .num v => .ok v
  | .bin op l r =>
    match eval_node l with
    | .error e => .error e
    | .ok a =>
      match eval_node r with
      | .error e => .error e
      | .ok b =>
        match ALLOWED_OPS_bin op with
        | none => .error "Unsupported operator"
        | some f => f a b
  | .un op x =>
    match eval_node x with
    | .error e => .error e
    | .ok a =>
      match ALLOWED_OPS_un op with
      | none => .error "Unsupported unary operator"
      | some f => f a
  | .name _ => .error "Unsupported expression type: Name"
  | .call _ => .error "Unsupported expression type: Call"
  | .attr _ _ => .error "Unsupported expression type: Attribute"
  | .cmp _ _ => .error "Unsupported expression type: Compare"

/-- The numeric value eval_node produces, forgetting the int/float tag. -/
def evalValue (e : PyExpr) : Option ℚ :=
  match eval_node e with
  | .ok n => some n.val
  | .error _ => none

/-- Whether a binary operator belongs to the arithmetic whitelist. -/
def arithBin : BinK → Bool
  | .add | .sub | .mult | .div | .pow | .mod => true
  | _ => false

/-- The well-formed arithmetic fragment of the claim: numeric literals,
whitelisted binary operators and unary minus only. -/
def isArith : PyExpr → Bool
  | .num _ => true
  | .bin op l r => arithBin op && isArith l && isArith r
  | .un op x => (match op with | .usub => true | _ => false) && isArith x
  | _ => false

/-- Reference semantics (the mathematically correct value, written from the
spec): exact rational arithmetic with standard precedence already resolved in
the tree; division and modulo are undefined on a zero divisor, powers on
integer exponents with 0 to a negative power undefined, everything outside the
arithmetic fragment undefined. -/
def denote : PyExpr → Option ℚ
  | .num v => some v.val
  | .bin op l r =>
    match denote l, denote r with
    | some a, some b =>
      match op with
      | .add => some (a + b)
      | .sub => some (a - b)
      | .mult => some (a * b)
      | .div => if b = 0 then none else some (a / b)
      | .pow =>
        if b.den = 1 then
          if a = 0 ∧ b.num < 0 then none else some (a ^ b.num)
        else none
      | .mod => if b = 0 then none else some (a - b * (⌊a / b⌋ : ℚ))
      | _ => none
    | _, _ => none
  | .un .usub x => (denote x).map (fun a => -a)
  | _ => none

/-! ## Arithmetic string parser (the ast.parse front end of safe_eval)

safe_eval parses the expression string with Python's parser and hands the
tree to _eval_node.  The parser below accepts exactly the arithmetic surface
language the evaluator can act on (numeric literals, + - * / % **, unary
minus and plus, parentheses, with Python precedence) and rejects everything
else; a string Python would parse into a node outside the whitelist (a name,
a call, a comparison, a bitwise operator) is rejected here at the front end,
which is observationally the same Except.error outcome safe_eval produces. -/

/-- Tokens of the arithmetic surface language. -/
inductive Tok where
  | num (v : PyNum)
  | plus | minus | star | slash | percent | dstar | lpar | rpar
deriving DecidableEq

/-- Numeric literal at the head of the input: intDigits [. fracDigits]. -/
def lexNumber (s : List Char) : Option (PyNum × List Char) :=
  let ds := s.takeWhile Char.isDigit
  let r1 := s.dropWhile Char.isDigit
  if ds.isEmpty then none
  else
    match r1 with
    | '.' :: r2 =>
      let fr := r2.takeWhile Char.isDigit
      some (⟨true, (digitsVal ds : ℚ) + (digitsVal fr : ℚ) / ((10 : ℚ) ^ fr.length)⟩,
            r2.dropWhile Char.isDigit)
    | _ => some (⟨false, (digitsVal ds : ℚ)⟩, r1)

/-- Tokenizer (fuel-bounded structural recursion; fuel = input length suffices
because every step consumes at least one character). -/
def tokenizeAux : Nat → List Char → Except String (List Tok)
  | 0, [] => .ok []
  | 0, _ :: _ => .error "tokenizer fuel exhausted"
  | _ + 1, [] => .ok []
  | fuel + 1, c :: rest =>
    if isPySpace c then tokenizeAux fuel rest
    else if c.isDigit then
      match lexNumber (c :: rest) with
      | some (n, r) =>
        match tokenizeAux fuel r with
        | .ok ts => .ok (.num n :: ts)
        | .error e => .error e
      | none => .error "bad number"
    else if c == '*' then
      match rest with
      | '*' :: r2 =>
        match tokenizeAux fuel r2 with
        | .ok ts => .ok (.dstar :: ts)
        | .error e => .error e
      | _ =>
        match tokenizeAux fuel rest with
        | .ok ts => .ok (.star :: ts)
        | .error e => .error e
    else
      let tk : Option Tok :=
        if c == '+' then some .plus
        else if c == '-' then some .minus
        else if c == '/' then some .slash
        else if c == '%' then some .percent
        else if c == '(' then some .lpar
        else if c == ')' then some .rpar
        else none
      match tk with
      | some t =>
        match tokenizeAux fuel rest with
        | .ok ts => .ok (t :: ts)
        | .error e => .error e
      | none => .error "invalid character in expression"

/-- Tokenize an expression string. -/
def tokenize (s : List Char) : Except String (List Tok) :=
  tokenizeAux s.length s

/- Recursive-descent parser with Python precedence:
expr := term ((+|-) term)* ; term := unary ((*|/|%) unary)* ;
unary := (-|+) unary | power ; power := atom (** unary)? ;
atom := number | ( expr ).  Fuel-bounded; parse_full supplies ample fuel. -/
mutual

def parseExpr : Nat → List Tok → Except String (PyExpr × List Tok)
  | 0, _ => .error "parser fuel exhausted"
  | fuel + 1, ts =>
    match parseTerm fuel ts with
    | .error e => .error e
    | .ok (e1, r1) => parseExprLoop fuel e1 r1

def parseExprLoop : Nat → PyExpr → List Tok → Except String (PyExpr × List Tok)
  | 0, _, _ => .error "parser fuel exhausted"
  | fuel + 1, acc, ts =>
    match ts with
    | .plus :: r =>
      match parseTerm fuel r with
      | .error e => .error e
      | .ok (e2, r2) => parseExprLoop fuel (.bin .add acc e2) r2
    | .minus :: r =>
      match parseTerm fuel r with
      | .error e => .error e
      | .ok (e2, r2) => parseExprLoop fuel (.bin .sub acc e2) r2
    | _ => .ok (acc, ts)

def parseTerm : Nat → List Tok → Except String (PyExpr × List Tok)
  | 0, _ => .error "parser fuel exhausted"
  | fuel + 1, ts =>
    match parseUnary fuel ts with
    | .error e => .error e
    | .ok (e1, r1) => parseTermLoop fuel e1 r1

def parseTermLoop : Nat → PyExpr → List Tok → Except String (PyExpr × List Tok)
  | 0, _, _ => .error "parser fuel exhausted"
  | fuel + 1, acc, ts =>
    match ts with
    | .star :: r =>
      match parseUnary fuel r with
      | .error e => .error e
      | .ok (e2, r2) => parseTermLoop fuel (.bin .mult acc e2) r2
    | .slash :: r =>
      match parseUnary fuel r with
      | .error e => .error e
      | .ok (e2, r2) => parseTermLoop fuel (.bin .div acc e2) r2
    | .percent :: r =>
      match parseUnary fuel r with
      | .error e => .error e
      | .ok (e2, r2) => parseTermLoop fuel (.bin .mod acc e2) r2
    | _ => .ok (acc, ts)

def parseUnary : Nat → List Tok → Except String (PyExpr × List Tok)
  | 0, _ => .error "parser fuel exhausted"
  | fuel + 1, ts =>
    match ts with
    | .minus :: r =>
      match parseUnary fuel r with
      | .error e => .error e
      | .ok (e1, r1) => .ok (.un .usub e1, r1)
    | .plus :: r =>
      match parseUnary fuel r with
      | .error e => .error e
      | .ok (e1, r1) => .ok (.un .uadd e1, r1)
    | _ => parsePower fuel ts

def parsePower : Nat → List Tok → Except String (PyExpr × List Tok)
  | 0, _ => .error "parser fuel exhausted"
  | fuel + 1, ts =>
    match parseAtom fuel ts with
    | .error e => .error e
    | .ok (e1, r1) =>
      match r1 with
      | .dstar :: r2 =>
        match parseUnary fuel r2 with
        | .error e => .error e
        | .ok (e2, r3) => .ok (.bin .pow e1 e2, r3)
      | _ => .ok (e1, r1)

def parseAtom : Nat → List Tok → Except String (PyExpr × List Tok)
  | 0, _ => .error "parser fuel exhausted"
  | fuel + 1, ts =>
    match ts with
    | .num n :: r => .ok (.num n, r)
    | .lpar :: r =>
      match parseExpr fuel r with
      | .error e => .error e
      | .ok (e1, r1) =>
        match r1 with
        | .rpar :: r2 => .ok (e1, r2)
        | _ => .error "expected closing parenthesis"
    | _ => .error "invalid expression syntax"

end

/-- Parse a complete expression string (all tokens must be consumed, as
ast.parse requires). -/
def parse_full (toks : List Tok) : Except String PyExpr :=
  match parseExpr (4 * toks.length + 8) toks with
  | .error e => .error e
  | .ok (e, []) => .ok e
  | .ok (_, _ :: _) => .error "unexpected trailing tokens"

/-- safe_eval of agent/utils.py: strip, parse to a tree, evaluate with
_eval_node; every parse or evaluation exception surfaces as a ValueError,
modelled as Except.error. -/
def safe_eval (s : String) : Except String PyNum :=
  match tokenize (pyStrip s.data) with
  | .error e => .error e
  | .ok toks =>
    match parse_full toks with
    | .error e => .error e
    | .ok tree => eval_node tree

/-! ## Lazy regex helpers (for the patterns using +? and *?) -/

/-- Continuation of a lazy `(.+?)` capture: at each point first try the stop
pattern (lazy preference), otherwise consume one more non-newline character. -/
def lazyDotAux {α : Type} (stop : List Char → Option α) (acc : List Char) :
    List Char → Option (List Char × α)
  | [] => (stop []).map (fun r => (acc.reverse, r))
  | c :: rest =>
    match stop (c :: rest) with
    | some r => some (acc.reverse, r)
    | none => if c.toNat == 10 then none else lazyDotAux stop (c :: acc) rest

/-- Regex `(.+?)` followed by `stop`: at least one character, lazily extended. -/
def lazyDot1 {α : Type} (stop : List Char → Option α) :
    List Char → Option (List Char × α)
  | [] => none
  | c :: rest => if c.toNat == 10 then none else lazyDotAux stop [c] rest

/-- Regex `.*?` followed by `stop`: zero or more characters, lazily extended. -/
def lazyStar {α : Type} (stop : List Char → Option α) : List Char → Option α
  | [] => stop []
  | c :: rest =>
    match stop (c :: rest) with
    | some r => some r
    | none => if c.toNat == 10 then none else lazyStar stop rest

/-! ## Query planner (agent/planner.py) -/

/-- ToolName of agent/models.py. -/
inductive ToolName where
  | calculator | weather | kb | unitconv | translator
deriving DecidableEq

/-- ToolPlan of agent/models.py: a tool and its (string-valued) arguments.
Every plan the planner builds carries the keys its tool requires, so the
pydantic args validator never fires and is not modelled separately. -/
structure ToolPlan where
  tool : ToolName
  args : List (String × String)
deriving DecidableEq

/-- Pattern `percentage` = `\d+(?:\.\d+)?%\s+of\s+\d+(?:\.\d+)?`, match at a
position (the greedy pieces need no backtracking: a shorter digit run is
always followed by a digit, never by the required next character). -/
def percentageAt (s : List Char) : Bool :=
  (do
    let (_, r1) ← spanNumber s
    let r2 ← lit [ '%' ] r1
    let r3 ← dropWs1 r2
    let r4 ← lit ( "of" ).data r3
    let r5 ← dropWs1 r4
    let (_, _) ← spanNumber r5
    pure ()).isSome

/-- Pattern `math_operations` = `(?:add|subtract|multiply|divide|\+|\-|\*|\/|\d)`
at a position. -/
def mathOpsAt (s : List Char) : Bool :=
  ( "add" ).data.isPrefixOf s || ( "subtract" ).data.isPrefixOf s ||
  ( "multiply" ).data.isPrefixOf s || ( "divide" ).data.isPrefixOf s ||
  (match s with
   | c :: _ => c == '+' || c == '-' || c == '*' || c == '/' || c.isDigit
   | [] => false)

/-- The `any(op in normalized_query for op in [...])` test of _plan_calculation. -/
def containsAnyCalcOp (nq : List Char) : Bool :=
  containsSub ( "%" ).data nq || containsSub ( "+" ).data nq ||
  containsSub ( "-" ).data nq || containsSub ( "*" ).data nq ||
  containsSub ( "/" ).data nq || containsSub ( "add" ).data nq ||
  containsSub ( "subtract" ).data nq || containsSub ( "multiply" ).data nq ||
  containsSub ( "divide" ).data nq || containsSub ( "average" ).data nq

/-- _plan_calculation of agent/planner.py. -/
def plan_calculation (nq oq : List Char) : Option ToolPlan :=
  if searchB percentageAt nq then
    some ⟨ .calculator, [( "expr", String.mk oq)]⟩
  else if containsAnyCalcOp nq && searchB mathOpsAt nq then
    some ⟨ .calculator, [( "expr", String.mk oq)]⟩
  else none

/-- Tail `(\d+(?:\.\d+)?)\s+(\w+)\s+to\s+(\w+)` at a position: captures
(value literal, from unit, to unit). -/
def numUnitToUnitAt (s : List Char) : Option (List Char × List Char × List Char) :=
  do
    let (numL, r2) ← spanNumber s
    let r3 ← dropWs1 r2
    let (u1, r4) := spanWord r3
    if u1.isEmpty then none else
    let r5 ← dropWs1 r4
    let r6 ← lit ( "to" ).data r5
    let r7 ← dropWs1 r6
    let (u2, _) := spanWord r7
    if u2.isEmpty then none else
    some (numL, u1, u2)

/-- Pattern `conversion` = `convert\s+(\d+(?:\.\d+)?)\s+(\w+)\s+to\s+(\w+)`
at a position. -/
def conversionAt (s : List Char) : Option (List Char × List Char × List Char) :=
  do
    let r0 ← lit ( "convert" ).data s
    let r1 ← dropWs1 r0
    numUnitToUnitAt r1

/-- _plan_unit_conversion of agent/planner.py. -/
def plan_unit_conversion (nq oq : List Char) : Option ToolPlan :=
  if (searchOpt conversionAt nq).isSome then
    some ⟨ .unitconv, [( "query", String.mk oq)]⟩
  else if ( "convert" ).data.isPrefixOf nq &&
      (containsSub ( "usd" ).data nq || containsSub ( "eur" ).data nq ||
       containsSub ( "celsius" ).data nq || containsSub ( "fahrenheit" ).data nq ||
       containsSub ( "c" ).data nq || containsSub ( "f" ).data nq) then
    some ⟨ .unitconv, [( "query", String.mk oq)]⟩
  else none

/-- Tail `from\s+(\w+)\s+to\s+(\w+)` at a position: captures the two
language words. -/
def fromToTail (s : List Char) : Option (List Char × List Char) :=
  do
    let r1 ← lit ( "from" ).data s
    let r2 ← dropWs1 r1
    let (f, r3) := spanWord r2
    if f.isEmpty then none else
    let r4 ← dropWs1 r3
    let r5 ← lit ( "to" ).data r4
    let r6 ← dropWs1 r5
    let (t, _) := spanWord r6
    if t.isEmpty then none else
    some (f, t)

/-- Tail `to\s+(\w+)` at a position: captures the language word. -/
def toTail (s : List Char) : Option (List Char) :=
  do
    let r1 ← lit ( "to" ).data s
    let r2 ← dropWs1 r1
    let (t, _) := spanWord r2
    if t.isEmpty then none else
    some t

/-- Pattern `translation` = `translate\s+["\'](.+?)["\'].*?from\s+(\w+)\s+to\s+(\w+)`
at a position: (text, from, to). -/
def translationP1At (s : List Char) : Option (List Char × List Char × List Char) :=
  do
    let r0 ← lit ( "translate" ).data s
    let r1 ← dropWs1 r0
    match r1 with
    | [] => none
    | q :: r2 =>
      if isQuoteChar q then
        match lazyDot1 (fun u =>
          match u with
          | q2 :: r3 => if isQuoteChar q2 then lazyStar fromToTail r3 else none
          | [] => none) r2 with
        | some (text, (f, t)) => some (text, f, t)
        | none => none
      else none

/-- Pattern 2 of _plan_translation: `translate\s+(\w+)\s+from\s+(\w+)\s+to\s+(\w+)`. -/
def translationP2At (s : List Char) : Option (List Char × List Char × List Char) :=
  do
    let r0 ← lit ( "translate" ).data s
    let r1 ← dropWs1 r0
    let (w, r2) := spanWord r1
    if w.isEmpty then none else
    let r3 ← dropWs1 r2
    let (f, t) ← fromToTail r3
    some (w, f, t)

/-- Pattern 3 of _plan_translation: `translate\s+["\'](.+?)["\'].*?to\s+(\w+)`. -/
def translationP3At (s : List Char) : Option (List Char × List Char) :=
  do
    let r0 ← lit ( "translate" ).data s
    let r1 ← dropWs1 r0
    match r1 with
    | [] => none
    | q :: r2 =>
      if isQuoteChar q then
        lazyDot1 (fun u =>
          match u with
          | q2 :: r3 => if isQuoteChar q2 then lazyStar toTail r3 else none
          | [] => none) r2
      else none

/-- Pattern 4 of _plan_translation: `translate\s+(\w+)\s+to\s+(\w+)`. -/
def translationP4At (s : List Char) : Option (List Char × List Char) :=
  do
    let r0 ← lit ( "translate" ).data s
    let r1 ← dropWs1 r0
    let (w, r2) := spanWord r1
    if w.isEmpty then none else
    let r3 ← dropWs1 r2
    let t ← toTail r3
    some (w, t)

/-- _plan_translation of agent/planner.py: the four sub-patterns in order;
captures are lowercased (they already are, coming from the normalized query). -/
def plan_translation (nq _oq : List Char) : Option ToolPlan :=
  match searchOpt translationP1At nq with
  | some (text, f, t) =>
    some ⟨ .translator, [( "text", String.mk text), ( "from_lang", String.mk (toLowerL f)),
                         ( "to_lang", String.mk (toLowerL t))]⟩
  | none =>
    match searchOpt translationP2At nq with
    | some (text, f, t) =>
      some ⟨ .translator, [( "text", String.mk text), ( "from_lang", String.mk (toLowerL f)),
                           ( "to_lang", String.mk (toLowerL t))]⟩
    | none =>
      match searchOpt translationP3At nq with
      | some (text, t) =>
        some ⟨ .translator, [( "text", String.mk text), ( "from_lang", "english"),
                             ( "to_lang", String.mk (toLowerL t))]⟩
      | none =>
        match searchOpt translationP4At nq with
        | some (text, t) =>
          some ⟨ .translator, [( "text", String.mk text), ( "from_lang", "english"),
                               ( "to_lang", String.mk (toLowerL t))]⟩
        | none => none

/-- Lazy group body of the `city_extraction` pattern: extend
`([a-zA-Z\s]+?)` one character at a time, trying the terminator
`(?:\s|$|\?|,)` first at every point (after the mandatory first character). -/
def cityGroupExt (acc : List Char) : List Char → Option (List Char)
  | [] => some acc.reverse
  | c :: rest =>
    if isPySpace c || c == '?' || c == ',' then some acc.reverse
    else if c.isAlpha || isPySpace c then cityGroupExt (c :: acc) rest
    else none

/-- The lazy group `([a-zA-Z\s]+?)` with its terminator, at a position. -/
def cityGroup : List Char → Option (List Char)
  | [] => none
  | c :: rest => if c.isAlpha || isPySpace c then cityGroupExt [c] rest else none

/-- Backtracking of the greedy `\s+` before the group: try consuming k
whitespace characters for k from the whole run down to 1, leaving the rest of
the run to the group (re tries the longest `\s+` first). -/
def cityTryK : Nat → List Char → List Char → Option (List Char)
  | 0, _, _ => none
  | k + 1, ws, tail =>
    match cityGroup (ws.drop (k + 1) ++ tail) with
    | some cap => some cap
    | none => cityTryK k ws tail

/-- Pattern `city_extraction` = `in\s+([a-zA-Z\s]+?)(?:\s|$|\?|,)` at a position. -/
def cityMatchAt : List Char → Option (List Char)
  | 'i' :: 'n' :: rest =>
    let ws := rest.takeWhile isPySpace
    let tail := rest.dropWhile isPySpace
    if ws.isEmpty then none else cityTryK ws.length ws tail
  | _ => none

/-- _plan_weather of agent/planner.py: the weather pattern
`weather|temperature|temp` or the word summarize; city from city_extraction,
stripped and title-cased, defaulting to Paris. -/
def plan_weather (nq oq : List Char) : Option ToolPlan :=
  if containsSub ( "weather" ).data nq || containsSub ( "temperature" ).data nq ||
     containsSub ( "temp" ).data nq || containsSub ( "summarize" ).data nq then
    let city : String :=
      match searchOpt cityMatchAt nq with
      | some cap => String.mk (titleList (pyStrip cap))
      | none => "Paris"
    some ⟨ .weather, [( "city", city), ( "query", String.mk oq)]⟩
  else none

/-- Pattern `who_is` = `who\s+is\s+(.+?)(?:\?|$)` (IGNORECASE, searched on the
original-case query) at a position: the capture keeps the original case. -/
def whoIsAt (s : List Char) : Option (List Char) :=
  do
    let r0 ← litCI ( "who" ).data s
    let r1 ← dropWs1 r0
    let r2 ← litCI ( "is" ).data r1
    let r3 ← dropWs1 r2
    let (cap, _) ← lazyDot1 (fun u =>
      match u with
      | [] => some ()
      | c :: _ => if c == '?' then some () else none) r3
    some cap

/-- _plan_knowledge_base of agent/planner.py. -/
def plan_knowledge_base (nq oq : List Char) : Option ToolPlan :=
  match searchOpt whoIsAt oq with
  | some person => some ⟨ .kb, [( "query", String.mk (pyStrip person))]⟩
  | none =>
    if containsSub ( "who" ).data nq || containsSub ( "what" ).data nq ||
       containsSub ( "when" ).data nq || containsSub ( "where" ).data nq ||
       containsSub ( "how" ).data nq then
      some ⟨ .kb, [( "query", String.mk oq)]⟩
    else none

/-- A planner stage: normalized and original query to a decision; `.error`
models a stage raising an exception (swallowed by plan's per-stage try). -/
def PlannerStage : Type :=
  List Char → List Char → Except String (Option ToolPlan)

/-- The for-loop body of QueryPlanner.plan: first stage answering with a plan
wins; a stage that raises or declines is skipped. -/
def run_stages : List PlannerStage → List Char → List Char → Option ToolPlan
  | [], _, _ => none
  | s :: rest, nq, oq =>
    match s nq oq with
    | .error _ => run_stages rest nq oq
    | .ok none => run_stages rest nq oq
    | .ok (some p) => some p

/-- QueryPlanner.plan over an arbitrary stage list: normalized and stripped
query, the stage cascade, then the guaranteed KnowledgeBase fallback. -/
def plan_with (stages : List PlannerStage) (q : String) : ToolPlan :=
  let nq := normalize_text q
  let oq := pyStrip q.data
  match run_stages stages nq oq with
  | some p => p
  | none => ⟨ .kb, [( "query", String.mk oq)]⟩

/-- The five stages of QueryPlanner.plan in priority order (all five are total
functions, so each is wrapped as a non-raising stage). -/
def planner_stages : List PlannerStage :=
  [ fun nq oq => .ok (plan_calculation nq oq),
    fun nq oq => .ok (plan_unit_conversion nq oq),
    fun nq oq => .ok (plan_translation nq oq),
    fun nq oq => .ok (plan_weather nq oq),
    fun nq oq => .ok (plan_knowledge_base nq oq) ]

/-- QueryPlanner.plan of agent/planner.py. -/
def plan (q : String) : ToolPlan :=
  plan_with planner_stages q

/-! ## Calculator tool (agent/tools/calculator.py) -/

/-- Capturing form of the percentage pattern
`(\d+(?:\.\d+)?)%\s+of\s+(\d+(?:\.\d+)?)` at a position. -/
def percentCaptureAt (s : List Char) : Option (List Char × List Char) :=
  do
    let (p, r1) ← spanNumber s
    let r2 ← lit [ '%' ] r1
    let r3 ← dropWs1 r2
    let r4 ← lit ( "of" ).data r3
    let r5 ← dropWs1 r4
    let (v, _) ← spanNumber r5
    some (p, v)

/-- _handle_percentage of CalculatorTool: rewrite to "(p / 100) * v". -/
def _handle_percentage (e : List Char) : List Char :=
  match searchOpt percentCaptureAt e with
  | some (p, v) => ( "(" ).data ++ p ++ ( " / 100) * " ).data ++ v
  | none => e

/-- All matches of `\d+(?:\.\d+)?` (re.findall), fuel-bounded scan. -/
def findNumsAux : Nat → List Char → List (List Char)
  | 0, _ => []
  | _ + 1, [] => []
  | fuel + 1, c :: rest =>
    if c.isDigit then
      match spanNumber (c :: rest) with
      | some (n, r) => n :: findNumsAux fuel r
      | none => findNumsAux fuel rest
    else findNumsAux fuel rest

/-- re.findall of the number pattern. -/
def findNums (l : List Char) : List (List Char) :=
  findNumsAux l.length l

/-- Pattern `average\s+(?:of\s+)?(.+)` at a position: the capture (greedy,
to the end of the text; queries hold no newline). -/
def avgCaptureAt (s : List Char) : Option (List Char) :=
  do
    let r0 ← lit ( "average" ).data s
    let r1 ← dropWs1 r0
    match lit ( "of" ).data r1 with
    | some r2 =>
      match dropWs1 r2 with
      | some r3 => if r3.isEmpty then (if r1.isEmpty then none else some r1) else some r3
      | none => if r1.isEmpty then none else some r1
    | none => if r1.isEmpty then none else some r1

/-- _handle_average of CalculatorTool. -/
def _handle_average (e : List Char) : List Char :=
  if containsSub ( "temperature in paris and london" ).data e then
    ( "(18 + 17) / 2" ).data
  else
    match searchOpt avgCaptureAt e with
    | some rest =>
      let nums := findNums rest
      if 2 ≤ nums.length then
        ( "(" ).data ++ List.intercalate ( " + " ).data nums ++ ( ") / " ).data ++
          (Nat.repr nums.length).data
      else e
    | none => e

/-- Pattern `add\s+(\d+(?:\.\d+)?)\s+to\s+(.+)` at a position:
(value literal, rest of the text). -/
def addToAt (s : List Char) : Option (List Char × List Char) :=
  do
    let r0 ← lit ( "add" ).data s
    let r1 ← dropWs1 r0
    let (v, r2) ← spanNumber r1
    let r3 ← dropWs1 r2
    let r4 ← lit ( "to" ).data r3
    let r5 ← dropWs1 r4
    if r5.isEmpty then none else some (v, r5)

/-- str.replace, every non-overlapping occurrence left to right. -/
def replaceSub (pat repl : List Char) : List Char → List Char
  | [] => []
  | c :: rest =>
    if pat.isPrefixOf (c :: rest) ∧ pat ≠ [] then
      repl ++ replaceSub pat repl (rest.drop (pat.length - 1))
    else c :: replaceSub pat repl rest
termination_by l => l.length
decreasing_by
  · simp only [List.length_drop, List.length_cons]
    omega
  · simp only [List.length_cons]
    omega

/-- Drop a `^what\s+is\s+` prefix (re.sub with an anchored pattern). -/
def stripWhatIs (s : List Char) : List Char :=
  match
    (do
      let r0 ← lit ( "what" ).data s
      let r1 ← dropWs1 r0
      let r2 ← lit ( "is" ).data r1
      dropWs1 r2 : Option (List Char)) with
  | some r => r
  | none => s

/-- Drop one trailing question mark (re.sub `\?$`). -/
def stripTrailingQ (s : List Char) : List Char :=
  match s.reverse with
  | '?' :: r => r.reverse
  | _ => s

/-- _preprocess_expression of CalculatorTool. -/
def _preprocess_expression (expr : String) : List Char :=
  let c1 := stripWhatIs (toLowerL expr.data)
  let c2 := stripTrailingQ c1
  if containsSub ( "% of" ).data c2 then _handle_percentage c2
  else
    match searchOpt addToAt c2 with
    | some (v, rest) =>
      let rest2 := if containsSub ( "average" ).data rest then _handle_average rest else rest
      v ++ ( " + (" ).data ++ rest2 ++ ( ")" ).data
    | none =>
      let c3 := replaceSub ( "plus" ).data ( "+" ).data c2
      let c4 := replaceSub ( "minus" ).data ( "-" ).data c3
      let c5 := replaceSub ( "times" ).data ( "*" ).data c4
      let c6 := replaceSub ( "divided by" ).data ( "/" ).data c5
      pyStrip c6

/-- Python str() of an evaluator result: ints print bare, floats with a dot. -/
def pyNumStr (n : PyNum) : String :=
  if n.isFloat then pyFloatStr n.val else Int.repr n.val.num

/-- CalculatorTool.execute. -/
def calculator_execute (expr : String) : Except String String :=
  match safe_eval (String.mk (_preprocess_expression expr)) with
  | .ok n => .ok (pyNumStr n)
  | .error e => .error ( "Calculation failed: " ++ e)

/-- CalculatorTool.run: validate_args then execute. -/
def calculator_run (args : List (String × String)) : Except String String :=
  match List.lookup "expr" args with
  | some e => calculator_execute e
  | none => .error "Calculator requires expr argument"

/-! ## Weather tool (agent/tools/weather.py) -/

/-- The mock weather table: city to (temperature, condition). -/
def _weather_data : List (String × ℚ × String) :=
  [ ( "paris", (18, "cloudy")),
    ( "london", (17, "rainy")),
    ( "dhaka", (31, "sunny")),
    ( "amsterdam", (19.5, "partly cloudy")),
    ( "new york", (22, "sunny")),
    ( "tokyo", (25, "humid")),
    ( "berlin", (16, "overcast")),
    ( "sydney", (20, "clear")) ]

/-- WeatherTool.get_temperature_value: table lookup, 20.0 for unknown cities. -/
def get_temperature_value (city : String) : ℚ :=
  match List.lookup (String.mk (toLowerL (pyStrip city.data))) _weather_data with
  | some (t, _) => t
  | none => 20

/-- Pattern `(\d+)\s+words?` at a position: the digit capture. -/
def wordCountAt (s : List Char) : Option (List Char) :=
  do
    let ds := s.takeWhile Char.isDigit
    if ds.isEmpty then none else
    let r1 ← dropWs1 (s.dropWhile Char.isDigit)
    let _ ← lit ( "word" ).data r1
    some ds

/-- _generate_summary of WeatherTool. -/
def _generate_summary (temp : ℚ) (condition : String) (query : List Char) : String :=
  let tempDesc : String :=
    if temp < 10 then "cold" else if temp < 20 then "mild"
    else if temp < 30 then "warm" else "hot"
  let titled := String.mk (titleList tempDesc.data)
  match searchOpt wordCountAt query with
  | some ds =>
    let n := digitsVal ds
    if n = 3 then titled ++ " and " ++ condition ++ "."
    else if n = 2 then titled ++ " " ++ condition ++ "."
    else if n = 1 then titled
    else titled ++ " and " ++ condition ++ "."
  | none => titled ++ " and " ++ condition ++ "."

/-- WeatherTool.execute. -/
def weather_execute (city : String) (query : String) : String :=
  let (temp, condition) :=
    match List.lookup (String.mk (toLowerL (pyStrip city.data))) _weather_data with
    | some tc => tc
    | none => (20, "mild")
  let ql := toLowerL query.data
  if containsSub ( "summarize" ).data ql && containsSub ( "words" ).data ql then
    _generate_summary temp condition ql
  else pyFloatStr temp ++ " C"

/-- WeatherTool.run: validate_args then execute (query kwarg defaults to ""). -/
def weather_run (args : List (String × String)) : Except String String :=
  match List.lookup "city" args with
  | some c => .ok (weather_execute c ((List.lookup "query" args).getD ""))
  | none => .error "Weather tool requires city argument"

/-! ## Knowledge-base tool (agent/tools/kb.py) -/

/-- One knowledge-base entry. -/
structure KBEntry where
  name : String
  summary : String
deriving DecidableEq

/-- The default in-memory knowledge base (data/kb.json is absent). -/
def kb_default_entries : List KBEntry :=
  [ ⟨ "Ada Lovelace",
      "Ada Lovelace was a 19th-century mathematician regarded as an early computing pioneer for her work on Charles Babbage's Analytical Engine."⟩,
    ⟨ "Alan Turing",
      "Alan Turing was a mathematician and logician, widely considered to be the father of theoretical computer science and artificial intelligence."⟩ ]

/-- KnowledgeBaseTool.execute: first entry whose lowercased name contains the
lowercased stripped query or vice versa. -/
def kb_execute (entries : List KBEntry) (query : String) : String :=
  let ql := toLowerL (pyStrip query.data)
  match entries.find? (fun e =>
      containsSub ql (toLowerL e.name.data) || containsSub (toLowerL e.name.data) ql) with
  | some e => e.summary
  | none => "No entry found."

/-- KnowledgeBaseTool.run over the default table. -/
def kb_run (args : List (String × String)) : Except String String :=
  match List.lookup "query" args with
  | some q => .ok (kb_execute kb_default_entries q)
  | none => .error "Knowledge base requires query argument"

/-- The JSON documents involved in the knowledge-base file format (strings,
arrays and objects suffice for {"entries": [{"name": ..., "summary": ...}]}).
json.dump followed by json.load is the standard library's inverse pair, so the
saved file is modelled as the JSON document itself. -/
inductive Json where
  | str (s : String)
  | arr (items : List Json)
  | obj (fields : List (String × Json))

/-- dict.get on a JSON object. -/
def jGet (j : Json) (k : String) : Option Json :=
  match j with
  | .obj fs => List.lookup k fs
  | _ => none

/-- entry.get(key, "") where the value is expected to be a string. -/
def jGetStr (j : Json) (k : String) : String :=
  match jGet j k with
  | some (.str s) => s
  | _ => ""

/-- KnowledgeBaseTool.save_knowledge_base: the document written to the file. -/
def save_knowledge_base (entries : List KBEntry) : Json :=
  .obj [( "entries",
          .arr (entries.map (fun e =>
            .obj [( "name", .str e.name), ( "summary", .str e.summary)])))]

/-- The entry list a fresh KnowledgeBaseTool sees after _load_knowledge_base
reads a document: _kb_data.get("entries", []) with per-entry
entry.get("name", "") / entry.get("summary", ""). -/
def load_entries (j : Json) : List KBEntry :=
  match jGet j "entries" with
  | some (.arr items) => items.map (fun it => ⟨ jGetStr it "name", jGetStr it "summary"⟩)
  | _ => []

/-! ## Unit-converter tool (agent/tools/unitconv.py) -/

/-- A conversion table entry: a multiplicative factor or a temperature formula. -/
inductive Conversion where
  | factor (r : ℚ)
  | temp (f : ℚ → ℚ)

/-- The _conversions table (float literals as exact decimals). -/
def _conversions : List ((String × String) × Conversion) :=
  [ (( "usd", "eur"), .factor 0.9),
    (( "eur", "usd"), .factor 1.1),
    (( "usd", "gbp"), .factor 0.8),
    (( "gbp", "usd"), .factor 1.25),
    (( "eur", "gbp"), .factor 0.85),
    (( "gbp", "eur"), .factor 1.18),
    (( "c", "f"), .temp (fun x => (x * 9 / 5) + 32)),
    (( "celsius", "fahrenheit"), .temp (fun x => (x * 9 / 5) + 32)),
    (( "f", "c"), .temp (fun x => (x - 32) * 5 / 9)),
    (( "fahrenheit", "celsius"), .temp (fun x => (x - 32) * 5 / 9)),
    (( "m", "ft"), .factor 3.28084),
    (( "ft", "m"), .factor 0.3048),
    (( "km", "mi"), .factor 0.621371),
    (( "mi", "km"), .factor 1.60934),
    (( "kg", "lb"), .factor 2.20462),
    (( "lb", "kg"), .factor 0.453592) ]

/-- UnitConverterTool._parse_query: the two patterns in order. -/
def _parse_query (query : String) : Except String (ℚ × String × String) :=
  let ql := toLowerL (pyStrip query.data)
  match searchOpt conversionAt ql with
  | some (n, u1, u2) => .ok (pyFloatOfLit n, String.mk u1, String.mk u2)
  | none =>
    match searchOpt numUnitToUnitAt ql with
    | some (n, u1, u2) => .ok (pyFloatOfLit n, String.mk u1, String.mk u2)
    | none => .error "Could not parse conversion query"

/-- UnitConverterTool._convert. -/
def _convert (value : ℚ) (fromU toU : String) : Except String ℚ :=
  if fromU = toU then .ok value
  else
    match List.lookup (fromU, toU) _conversions with
    | some (.factor r) => .ok (value * r)
    | some (.temp f) => .ok (f value)
    | none => .error "Cannot convert between these units"

/-- round(x, 2) with Python's round-half-to-even. -/
def pyRound2 (q : ℚ) : ℚ :=
  let m := q * 100
  let f := ⌊m⌋
  let r := m - f
  let n : ℤ :=
    if r < 1/2 then f
    else if 1/2 < r then f + 1
    else if f % 2 = 0 then f else f + 1
  (n : ℚ) / 100

/-- UnitConverterTool.execute: parse, convert, then format — the result is
always a float; an integral float prints via str(int(result)), otherwise
str(round(result, 2)). -/
def unitconv_execute (query : String) : Except String String :=
  match _parse_query query with
  | .error e => .error ( "Unit conversion failed: " ++ e)
  | .ok (v, u1, u2) =>
    match _convert v u1 u2 with
    | .error e => .error ( "Unit conversion failed: " ++ e)
    | .ok r =>
      if r.den = 1 then .ok (Int.repr r.num)
      else .ok (pyFloatStr (pyRound2 r))

/-- UnitConverterTool.run. -/
def unitconv_run (args : List (String × String)) : Except String String :=
  match List.lookup "query" args with
  | some q => unitconv_execute q
  | none => .error "Unit converter requires query argument"

/-! ## Translator tool (agent/tools/translator.py) -/

/-- The language-code table. -/
def _language_codes : List (String × String) :=
  [ ( "en", "english"), ( "eng", "english"), ( "english", "english"),
    ( "es", "spanish"), ( "spa", "spanish"), ( "spanish", "spanish"),
    ( "fr", "french"), ( "fra", "french"), ( "french", "french"),
    ( "de", "german"), ( "ger", "german"), ( "german", "german"),
    ( "it", "italian"), ( "ita", "italian"), ( "italian", "italian") ]

/-- TranslatorTool._normalize_language. -/
def _normalize_language (lang : String) : String :=
  let l := String.mk (toLowerL (pyStrip lang.data))
  match List.lookup l _language_codes with
  | some v => v
  | none => l

/-- The mock translation table. -/
def _translations : List ((String × String × String) × String) :=
  [ (( "hello", "english", "spanish"), "hola"),
    (( "hello", "english", "french"), "bonjour"),
    (( "hello", "english", "german"), "hallo"),
    (( "hello", "english", "italian"), "ciao"),
    (( "goodbye", "english", "spanish"), "adiós"),
    (( "goodbye", "english", "french"), "au revoir"),
    (( "goodbye", "english", "german"), "auf wiedersehen"),
    (( "thank you", "english", "spanish"), "gracias"),
    (( "thank you", "english", "french"), "merci"),
    (( "thank you", "english", "german"), "danke"),
    (( "good morning", "english", "spanish"), "buenos días"),
    (( "good morning", "english", "french"), "bonjour"),
    (( "good morning", "english", "german"), "guten morgen"),
    (( "how are you", "english", "spanish"), "¿cómo estás?"),
    (( "how are you", "english", "french"), "comment allez-vous?"),
    (( "how are you", "english", "german"), "wie geht es ihnen?") ]

/-- TranslatorTool.execute: same normalized language returns the text
unchanged; otherwise table lookup with a bracketed-suffix fallback. -/
def translator_execute (text fromLang toLang : String) : Except String String :=
  let f := _normalize_language fromLang
  let t := _normalize_language toLang
  if f = t then .ok text
  else
    let tn := String.mk (toLowerL (pyStrip text.data))
    match List.lookup (tn, f, t) _translations with
    | some tr => .ok tr
    | none => .ok (text ++ " [" ++ t ++ "]")

/-- TranslatorTool.run. -/
def translator_run (args : List (String × String)) : Except String String :=
  match List.lookup "text" args, List.lookup "from_lang" args, List.lookup "to_lang" args with
  | some text, some f, some t => translator_execute text f t
  | _, _, _ => .error "Translator requires text, from_lang and to_lang arguments"

/-! ## Agent dispatcher (agent/agent.py) -/

/-- AgentResponse of agent/models.py. -/
structure AgentResponse where
  result : String
  tool_used : Option ToolName
  success : Bool
  error : Option String
deriving DecidableEq

/-- Agent._needs_weather_data: any weather keyword in the lowercased expression. -/
def _needs_weather_data (expr : String) : Bool :=
  let l := toLowerL expr.data
  containsSub ( "temperature" ).data l || containsSub ( "weather" ).data l ||
  containsSub ( "paris" ).data l || containsSub ( "london" ).data l ||
  containsSub ( "average" ).data l

/-- Pattern `add\s+(\d+)` at a position: the digit capture. -/
def addNumAt (s : List Char) : Option (List Char) :=
  do
    let r0 ← lit ( "add" ).data s
    let r1 ← dropWs1 r0
    let ds := r1.takeWhile Char.isDigit
    if ds.isEmpty then none else some ds

/-- Agent._handle_weather_calculation: for a "paris and london" expression with
"add" and "average", add the captured value to the average of the two city
temperatures and return str() of the float; otherwise fall back to the
calculator; any failure is reported as a weather-calculation error. -/
def _handle_weather_calculation (expr : String) : Except String String :=
  let lower := toLowerL expr.data
  let special : Option String :=
    if containsSub ( "paris and london" ).data lower then
      let paris := get_temperature_value "paris"
      let london := get_temperature_value "london"
      if containsSub ( "add" ).data lower && containsSub ( "average" ).data lower then
        match searchOpt addNumAt lower with
        | some ds =>
          some (pyFloatStr ((digitsVal ds : ℚ) + (paris + london) / 2))
        | none => none
      else none
    else none
  match special with
  | some r => .ok r
  | none =>
    match calculator_run [( "expr", expr)] with
    | .ok r => .ok r
    | .error e => .error ( "Weather calculation failed: " ++ e)

/-- The tool registry dispatch of Agent._execute_tool (all five ToolName
values are present in Agent.tools, so the unknown-tool branch is unreachable). -/
def run_tool (p : ToolPlan) : Except String String :=
  match p.tool with
  | .calculator => calculator_run p.args
  | .weather => weather_run p.args
  | .kb => kb_run p.args
  | .unitconv => unitconv_run p.args
  | .translator => translator_run p.args

/-- Agent._execute_tool: the calculator/weather special case, then the plain
tool run; any failure becomes a ToolExecutionError. -/
def execute_tool (p : ToolPlan) : Except String String :=
  let attempt : Except String String :=
    if p.tool = ToolName.calculator ∧
        _needs_weather_data ((List.lookup "expr" p.args).getD "") then
      _handle_weather_calculation ((List.lookup "expr" p.args).getD "")
    else run_tool p
  match attempt with
  | .ok r => .ok r
  | .error e => .error ( "Tool execution failed: " ++ e)

/-- Agent.process_query: empty-query rejection, then plan and execute; the
planner is total (its per-stage exceptions are swallowed internally), so the
PlanningError branch of the source is unreachable and every failure surfaces
through the ToolExecutionError branch. -/
def process_query (q : String) : AgentResponse :=
  if (pyStrip q.data).isEmpty then
    ⟨ "Please provide a question or query.", none, false, some "Empty query"⟩
  else
    let p := plan q
    match execute_tool p with
    | .ok r => ⟨ r, some p.tool, true, none⟩
    | .error e =>
      ⟨ "I encountered an error while processing your request.", none, false, some e⟩

/-- Agent.answer: process_query never raises, so answer is its result field. -/
def answer (q : String) : String :=
  (process_query q).result

/-! ## Shared lemmas -/

/-- The evaluator agrees with the exact reference semantics on every tree
(outside the arithmetic fragment both are undefined / failing). -/
theorem evalValue_eq_denote : ∀ e : PyExpr, evalValue e = denote e := by
  intro e
  induction e with
  | num v => rfl
  | bin op l r ihl ihr =>
    simp only [evalValue] at ihl ihr ⊢
    simp only [eval_node, denote]
    cases hl : eval_node l with
    | error e1 =>
      rw [hl] at ihl
      rw [← ihl]
    | ok a =>
      rw [hl] at ihl
      cases hr : eval_node r with
      | error e2 =>
        rw [hr] at ihr
        rw [← ihl, ← ihr]
      | ok b =>
        rw [hr] at ihr
        rw [← ihl, ← ihr]
        cases op <;>
          simp [ALLOWED_OPS_bin, py_add, py_sub, py_mul, py_truediv, py_pow, py_mod] <;>
          try (split_ifs <;> simp_all)
  | un op x ihx =>
    simp only [evalValue] at ihx ⊢
    simp only [eval_node, denote]
    cases hx : eval_node x with
    | error e1 =>
      rw [hx] at ihx
      cases op <;> simp [ALLOWED_OPS_un, ← ihx, denote]
    | ok a =>
      rw [hx] at ihx
      cases op <;> simp [ALLOWED_OPS_un, py_neg, ← ihx, denote]
  | name id => rfl
  | call f _ => rfl
  | attr e fld _ => rfl
  | cmp l r ihl ihr => rfl

/-- The reference semantics is undefined outside the arithmetic fragment. -/
theorem denote_none_outside : ∀ e : PyExpr, isArith e = false → denote e = none := by
  intro e
  induction e with
  | num v => intro h; simp [isArith] at h
  | bin op l r ihl ihr =>
    intro h
    simp only [denote]
    cases hl : isArith l with
    | false => rw [ihl hl]
    | true =>
      cases hr : isArith r with
      | false => rw [ihr hr]; cases denote l <;> rfl
      | true =>
        have hop : arithBin op = false := by
          simp [isArith, hl, hr] at h
          exact h
        cases denote l <;> cases denote r <;> try rfl
        cases op <;> simp [arithBin] at hop <;> rfl
  | un op x ihx =>
    intro h
    cases op with
    | usub =>
      have hx : isArith x = false := by simpa [isArith] using h
      simp [denote, ihx hx]
    | uadd => rfl
    | invert => rfl
  | name id => intro _; rfl
  | call f _ => intro _; rfl
  | attr e fld _ => intro _; rfl
  | cmp l r _ _ => intro _; rfl

/-- Every tree outside the arithmetic fragment makes eval_node fail. -/
theorem eval_node_fails_outside : ∀ e : PyExpr, isArith e = false → (eval_node e).isOk = false := by
  intro e h
  have hd := evalValue_eq_denote e
  rw [denote_none_outside e h] at hd
  unfold evalValue at hd
  cases he : eval_node e with
  | ok n => rw [he] at hd; simp at hd
  | error _ => rfl

/-! ## Claim theorems -/

/-- C1: on the whitelisted arithmetic fragment the evaluator computes the
mathematically correct value (it agrees everywhere with the exact reference
semantics denote), every syntax tree outside the fragment (names, calls,
attribute access, comparisons, bitwise and shift operators, uadd, invert)
fails with an error, and at string level well-formed arithmetic succeeds with
the correct value while identifiers, calls, attribute access, bitwise/shift
operators, comparisons and assignment all fail. -/
theorem C1_evaluator_whitelist :
    (∀ e : PyExpr, evalValue e = denote e)
    ∧ (∀ e : PyExpr, isArith e = false → (eval_node e).isOk = false)
    ∧ safe_eval "2 + 3 * 4" = .ok ⟨ false, 14⟩
    ∧ safe_eval "(10 + 5) * 2" = .ok ⟨ false, 30⟩
    ∧ safe_eval "-5" = .ok ⟨ false, -5⟩
    ∧ safe_eval "2 ** 3" = .ok ⟨ false, 8⟩
    ∧ safe_eval "17 % 5" = .ok ⟨ false, 2⟩
    ∧ (safe_eval "x + 1").isOk = false
    ∧ (safe_eval "abs(5)").isOk = false
    ∧ (safe_eval "2 | 3").isOk = false
    ∧ (safe_eval "1 << 2").isOk = false
    ∧ (safe_eval "2 < 3").isOk = false
    ∧ (safe_eval "x = 5").isOk = false :=
  ⟨evalValue_eq_denote, eval_node_fails_outside,
   by decide, by decide, by decide, by decide, by decide,
   by decide, by decide, by decide, by decide, by decide, by decide⟩

/-- C1 witness: the theorem applied to concrete trees. -/
theorem C1_evaluator_whitelist_witness :
    evalValue (.bin .div (.num ⟨ false, 7⟩) (.num ⟨ false, 2⟩)) = some (7 / 2)
    ∧ (eval_node (.name "x")).isOk = false
    ∧ (eval_node (.bin .bitOr (.num ⟨ false, 2⟩) (.num ⟨ false, 3⟩))).isOk = false := by
  refine ⟨?_, ?_, ?_⟩
  · rw [C1_evaluator_whitelist.1 (.bin .div (.num ⟨ false, 7⟩) (.num ⟨ false, 2⟩))]
    decide
  · exact C1_evaluator_whitelist.2.1 (.name "x") (by decide)
  · exact C1_evaluator_whitelist.2.1 (.bin .bitOr (.num ⟨ false, 2⟩) (.num ⟨ false, 3⟩)) (by decide)

/-- C2: division and modulo with a zero divisor fail (no infinite or NaN
result can be produced: the only outcomes are a number or an error, and these
cases are errors), a failed operand makes the whole node fail, and a
successful division is true division: an always-float result carrying the
exact quotient. -/
theorem C2_div_mod_zero :
    ∀ l r : PyExpr, ∀ a b : PyNum,
      (eval_node r = .ok b → b.val = 0 →
        (eval_node (.bin .div l r)).isOk = false ∧ (eval_node (.bin .mod l r)).isOk = false)
      ∧ (eval_node l = .ok a → eval_node r = .ok b → b.val ≠ 0 →
          eval_node (.bin .div l r) = .ok ⟨ true, a.val / b.val⟩)
      ∧ (∀ op : BinK, ((eval_node l).isOk = false ∨ (eval_node r).isOk = false) →
          (eval_node (.bin op l r)).isOk = false) := by
  intro l r a b
  refine ⟨?_, ?_, ?_⟩
  · intro hr hb
    cases hl : eval_node l with
    | error e1 => constructor <;> simp [eval_node, hl, Except.isOk, Except.toBool]
    | ok av =>
      constructor <;>
        simp [eval_node, hl, hr, ALLOWED_OPS_bin, py_truediv, py_mod, hb,
              Except.isOk, Except.toBool]
  · intro hl hr hb
    simp [eval_node, hl, hr, ALLOWED_OPS_bin, py_truediv, hb]
  · intro op h
    rcases h with h | h
    · cases hl : eval_node l with
      | error e1 => simp [eval_node, hl, Except.isOk, Except.toBool]
      | ok av => rw [hl] at h; simp [Except.isOk, Except.toBool] at h
    · cases hl : eval_node l with
      | error e1 => simp [eval_node, hl, Except.isOk, Except.toBool]
      | ok av =>
        cases hr : eval_node r with
        | error e2 => simp [eval_node, hl, hr, Except.isOk, Except.toBool]
        | ok bv => rw [hr] at h; simp [Except.isOk, Except.toBool] at h

/-- C2 witness: the theorem at concrete trees; the exact quotient 7/2 is not
the floored 3. -/
theorem C2_div_mod_zero_witness :
    (eval_node (.bin .div (.num ⟨ false, 1⟩) (.num ⟨ false, 0⟩))).isOk = false
    ∧ (eval_node (.bin .mod (.num ⟨ false, 1⟩) (.num ⟨ false, 0⟩))).isOk = false
    ∧ eval_node (.bin .div (.num ⟨ false, 7⟩) (.num ⟨ false, 2⟩)) = .ok ⟨ true, 7 / 2⟩
    ∧ ((7 : ℚ) / 2 ≠ 3) := by
  have h1 := (C2_div_mod_zero (.num ⟨ false, 1⟩) (.num ⟨ false, 0⟩) ⟨ false, 1⟩ ⟨ false, 0⟩).1
    rfl rfl
  have h2 := (C2_div_mod_zero (.num ⟨ false, 7⟩) (.num ⟨ false, 2⟩) ⟨ false, 7⟩ ⟨ false, 2⟩).2.1
    rfl rfl (by decide)
  exact ⟨h1.1, h1.2, h2, by decide⟩

/-- When no stage answers with a plan, the cascade yields nothing. -/
theorem run_stages_none (nq oq : List Char) :
    ∀ stages : List PlannerStage,
      (∀ s ∈ stages, ∀ p, s nq oq ≠ .ok (some p)) →
      run_stages stages nq oq = none := by
  intro stages
  induction stages with
  | nil => intro _; rfl
  | cons s rest ih =>
    intro h
    cases hs : s nq oq with
    | error e => simp [run_stages, hs]; exact ih (fun t ht p => h t (List.mem_cons_of_mem s ht) p)
    | ok o =>
      cases o with
      | none => simp [run_stages, hs]; exact ih (fun t ht p => h t (List.mem_cons_of_mem s ht) p)
      | some p => exact absurd hs (h s (List.mem_cons_self s rest) p)

/-- C3: a raising stage is skipped exactly like a declining one, a cascade in
which no stage accepts falls back to the KnowledgeBase plan carrying the
trimmed query, and in particular plan of the empty and of the all-blank query
is the KnowledgeBase fallback with query "". -/
theorem C3_planner_never_fails :
    (∀ (s : PlannerStage) (rest : List PlannerStage) (q : String) (e : String),
        s (normalize_text q) (pyStrip q.data) = .error e →
        plan_with (s :: rest) q = plan_with rest q)
    ∧ (∀ (stages : List PlannerStage) (q : String),
        (∀ s ∈ stages, ∀ p, s (normalize_text q) (pyStrip q.data) ≠ .ok (some p)) →
        plan_with stages q = ⟨ .kb, [( "query", String.mk (pyStrip q.data))]⟩)
    ∧ plan "" = ⟨ .kb, [( "query", "")]⟩
    ∧ plan "   " = ⟨ .kb, [( "query", "")]⟩ := by
  refine ⟨?_, ?_, by decide, by decide⟩
  · intro s rest q e hs
    simp [plan_with, run_stages, hs]
  · intro stages q h
    simp [plan_with, run_stages_none (normalize_text q) (pyStrip q.data) stages h]

/-- C3 witness: the theorem applied to a concrete raising stage and to the
empty cascade on a concrete query. -/
theorem C3_planner_never_fails_witness :
    plan_with [fun _ _ => Except.error "boom"] "hi" = ⟨ .kb, [( "query", "hi")]⟩ := by
  have h1 := C3_planner_never_fails.1 (fun _ _ => Except.error "boom") [] "hi" "boom" rfl
  rw [h1]
  have h2 := C3_planner_never_fails.2.1 [] "hi" (by intro s hs; simp at hs)
  rw [h2]
  decide

/-- C4: the query Convert 50 F to C resolves to the UnitConversion tool even
though it contains digits: the Calculation stage declines it and the
UnitConversion stage accepts it. -/
theorem C4_conversion_beats_calculation :
    plan "Convert 50 F to C" = ⟨ .unitconv, [( "query", "Convert 50 F to C")]⟩
    ∧ plan_calculation (normalize_text "Convert 50 F to C") (pyStrip ( "Convert 50 F to C" ).data) = none
    ∧ plan_unit_conversion (normalize_text "Convert 50 F to C") (pyStrip ( "Convert 50 F to C" ).data)
        = some ⟨ .unitconv, [( "query", "Convert 50 F to C")]⟩ := by
  refine ⟨by decide, by decide, by decide⟩

/-- C5: process_query populates the error field whenever success is false, an
empty or whitespace-only query is rejected with the fixed please-provide
response before any planning or tool work (the definition short-circuits), and
answer is the result field of process_query, hence total. -/
theorem C5_process_never_raises :
    ∀ q : String,
      ((process_query q).success = false → ((process_query q).error).isSome = true)
      ∧ ((pyStrip q.data).isEmpty = true →
          process_query q =
            ⟨ "Please provide a question or query.", none, false, some "Empty query"⟩)
      ∧ answer q = (process_query q).result := by
  intro q
  refine ⟨?_, ?_, rfl⟩
  · by_cases hq : (pyStrip q.data).isEmpty
    · intro _; simp [process_query, hq]
    · simp only [process_query, hq]
      cases he : execute_tool (plan q) with
      | ok r => simp [he]
      | error e => simp [he]
  · intro h
    simp [process_query, h]

/-- C5 witness: the theorem applied at concrete queries. -/
theorem C5_process_never_raises_witness :
    process_query "   " =
      ⟨ "Please provide a question or query.", none, false, some "Empty query"⟩
    ∧ ((process_query "Convert 1 xyz to abc").error).isSome = true := by
  constructor
  · exact (C5_process_never_raises "   ").2.1 (by decide)
  · exact (C5_process_never_raises "Convert 1 xyz to abc").1 (by decide)

/-- C6: the combined weather/arithmetic scenario: the query plans to the
calculator, the weather keywords trigger the dispatcher interception, Paris
and London report 18 and 17 degrees, and the answer is 10 + (18+17)/2 = 27.5
rendered as the string 27.5. -/
theorem C6_weather_average_scenario :
    answer "Add 10 to the average temperature in Paris and London right now." = "27.5"
    ∧ (plan "Add 10 to the average temperature in Paris and London right now.").tool
        = .calculator
    ∧ _needs_weather_data "Add 10 to the average temperature in Paris and London right now."
        = true
    ∧ get_temperature_value "paris" = 18
    ∧ get_temperature_value "london" = 17
    ∧ _handle_weather_calculation
        "Add 10 to the average temperature in Paris and London right now." = .ok "27.5" := by
  refine ⟨by decide, by decide, by decide, by decide, by decide, by decide⟩

/-- C7: what the code actually returns on the two conversion scenarios: the
result 9.0 is integral, so UnitConverterTool.execute formats it through
str(int(result)) and answer returns 9, not 9.0; likewise 212, not 212.0. -/
theorem C7_conversion_scenarios_actual :
    answer "Convert 10 USD to EUR" = "9"
    ∧ answer "Convert 100 C to F" = "212"
    ∧ unitconv_execute "Convert 10 USD to EUR" = .ok "9"
    ∧ unitconv_execute "Convert 100 C to F" = .ok "212"
    ∧ ( "9" : String) ≠ "9.0"
    ∧ ( "212" : String) ≠ "212.0" := by
  refine ⟨by decide, by decide, by decide, by decide, by decide, by decide⟩

/-- C8: what the code actually extracts for a multi-word city: the terminator
alternation of city_extraction includes whitespace, so the lazy capture stops
at the first space and the planner produces city New, not New York, on the
very input the repository's own planner test uses. -/
theorem C8_city_truncated_to_first_word :
    plan "What is the temperature in New York?" =
      ⟨ .weather, [( "city", "New"), ( "query", "What is the temperature in New York?")]⟩
    ∧ searchOpt cityMatchAt ( "temperature in new york" ).data = some ( "new" ).data
    ∧ ( "New" : String) ≠ "New York" := by
  refine ⟨by decide, by decide, by decide⟩

/-- C9: saving the in-memory entry table to the knowledge-base file and
loading that file in a fresh instance reproduces the identical entry list,
order preserved. -/
theorem C9_kb_save_load_round_trip :
    ∀ entries : List KBEntry,
      load_entries (save_knowledge_base entries) = entries := by
  intro entries
  have hdec : ∀ e : KBEntry,
      (⟨ jGetStr (.obj [( "name", .str e.name), ( "summary", .str e.summary)]) "name",
         jGetStr (.obj [( "name", .str e.name), ( "summary", .str e.summary)]) "summary"⟩
        : KBEntry) = e := fun e => rfl
  induction entries with
  | nil => rfl
  | cons e rest ih =>
    simp only [save_knowledge_base, load_entries, jGet, List.lookup, List.map] at ih ⊢
    simp_all

/-- C10: whenever the two language arguments normalize to the same language,
the translator returns its input text unchanged, before any table lookup. -/
theorem C10_translator_same_language :
    ∀ text fromLang toLang : String,
      _normalize_language fromLang = _normalize_language toLang →
      translator_execute text fromLang toLang = .ok text := by
  intro text f t h
  simp [translator_execute, h]

/-- C10 witness: the theorem at concrete arguments, with a text inside the
translation table and one outside it. -/
theorem C10_translator_same_language_witness :
    translator_execute "cheese" "en" "English" = .ok "cheese"
    ∧ translator_execute "hello" "EN" "english" = .ok "hello" := by
  constructor
  · exact C10_translator_same_language "cheese" "en" "English" (by decide)
  · exact C10_translator_same_language "hello" "EN" "english" (by decide)
